import Mathlib

/-!
Shallow embedding of `scene_module_manager_interface.hpp`
(`autoware::behavior_path_planner::SceneModuleManagerInterface`).

Modelling choices:
* A `SceneModuleObserver` (`std::weak_ptr<SceneModuleInterface>`) is a numeric
  id into an external registry `Env` (an association list). The referenced
  instance is live exactly when the registry still holds an entry for the id;
  `expired` is the absence of such an entry. The registry models the external
  owner that may destroy instances at any time.
* The manager's exclusively owned `idle_module_ptr_` (`std::unique_ptr`) is an
  `Option SceneModuleInterface` holding the instance value itself.
* Lifecycle hooks (`onEntry`, `onExit`) have no observable return value; they
  are recorded as emitted `Event`s so theorems can count invocations.
* Marker ids (`int32_t` fields added to a `uint32_t` counter; the C++ addition
  is performed in unsigned 32-bit arithmetic) are modelled as natural-number
  residues modulo `2 ^ 32`.
* ROS publication is modelled by returning the batch that would be published;
  headers (frame id, timestamp) come from an external clock and are omitted.
-/

namespace AutowareBPP

/-- Geometric pose (opaque payload; only identity matters to the manager). -/
structure Pose where
  x : Int
  y : Int
  z : Int
deriving DecidableEq, Repr, Inhabited

/-- One visualization marker: namespace label and numeric identifier
(`int32_t` in `visualization_msgs`, modelled as a residue mod `2 ^ 32`),
plus the optional pose a virtual-wall marker is placed at. -/
structure Marker where
  ns : String
  id : Nat
  pose : Option Pose := none
deriving DecidableEq, Repr, Inhabited

abbrev MarkerArray := List Marker

/-- The `PlanningBehavior::UNKNOWN` sentinel (a distinguished constant of the
behavior classification; only its distinguishability matters). -/
def PlanningBehavior.UNKNOWN : String := "unknown"

/-- Steering intent factor (`autoware_adapi_v1_msgs::msg::SteeringFactor`):
behavior classification plus an opaque payload distinguishing records. -/
structure SteeringFactor where
  behavior : String
  detail : String
deriving DecidableEq, Repr, Inhabited

/-- Velocity intent factor (`autoware_adapi_v1_msgs::msg::VelocityFactor`). -/
structure VelocityFactor where
  behavior : String
  detail : String
deriving DecidableEq, Repr, Inhabited

/-- The state of one scene-module instance, as visible through the query
surface the manager uses (`SceneModuleInterface` collaborator contract). -/
structure SceneModuleInterface where
  name : String
  planner_data : Option Nat := none
  previous_module_output : Option Nat := none
  execution_requested : Bool := false
  steering_factor : SteeringFactor := { behavior := PlanningBehavior.UNKNOWN, detail := "" }
  velocity_factor : VelocityFactor := { behavior := PlanningBehavior.UNKNOWN, detail := "" }
  stop_pose : Option Pose := none
  slow_pose : Option Pose := none
  dead_pose : Option Pose := none
  module_virtual_wall : MarkerArray := []
  info_markers : MarkerArray := []
  debug_markers : MarkerArray := []
  drivable_lanes_markers : MarkerArray := []
deriving DecidableEq, Repr, Inhabited

/-- Opaque planner context snapshot (`std::shared_ptr<PlannerData>`). -/
abbrev PlannerData := Nat

/-- Opaque previous-stage output (`BehaviorModuleOutput`). -/
abbrev BehaviorModuleOutput := Nat

namespace SceneModuleInterface

def setData (m : SceneModuleInterface) (d : PlannerData) : SceneModuleInterface :=
  { m with planner_data := some d }

def setPreviousModuleOutput (m : SceneModuleInterface) (o : BehaviorModuleOutput) :
    SceneModuleInterface :=
  { m with previous_module_output := some o }

/-- External data-refresh hook of the instance; opaque to the manager and
modelled as the identity on the visible record. -/
def updateData (m : SceneModuleInterface) : SceneModuleInterface := m

def isExecutionRequested (m : SceneModuleInterface) : Bool := m.execution_requested

def getStopPose (m : SceneModuleInterface) : Option Pose := m.stop_pose

def getSlowPose (m : SceneModuleInterface) : Option Pose := m.slow_pose

def getDeadPose (m : SceneModuleInterface) : Option Pose := m.dead_pose

def getModuleVirtualWall (m : SceneModuleInterface) : MarkerArray := m.module_virtual_wall

def getInfoMarkers (m : SceneModuleInterface) : MarkerArray := m.info_markers

def getDebugMarkers (m : SceneModuleInterface) : MarkerArray := m.debug_markers

def getDrivableLanesMarkers (m : SceneModuleInterface) : MarkerArray := m.drivable_lanes_markers

def get_steering_factor (m : SceneModuleInterface) : SteeringFactor := m.steering_factor

def get_velocity_factor (m : SceneModuleInterface) : VelocityFactor := m.velocity_factor

/-- Modelled from the spec: the instance's `resetWallPoses` (collaborator
contract, body not under src/) clears its recorded stop/slow/dead wall poses
("instruct the instance to clear its recorded wall poses"). -/
def resetWallPoses (m : SceneModuleInterface) : SceneModuleInterface :=
  { m with stop_pose := none, slow_pose := none, dead_pose := none }

end SceneModuleInterface

/-- A weak reference (`std::weak_ptr<SceneModuleInterface>`) is an id into the
external registry. -/
abbrev SceneModuleObserver := Nat

/-- The external registry owning instance lifetimes: an association list from
id to instance state. An id with no entry is a dangling (expired) reference. -/
abbrev Env := List (Nat × SceneModuleInterface)

/-- First-match lookup, mirroring dereference of a still-live `weak_ptr`. -/
def Env.get : Env → Nat → Option SceneModuleInterface
  | [], _ => none
  | p :: rest, i => if p.1 = i then some p.2 else Env.get rest i

/-- Overwrite the instance state stored for an id (no-op on absent ids). -/
def Env.set : Env → Nat → SceneModuleInterface → Env
  | [], _, _ => []
  | p :: rest, i, m =>
      if p.1 = i then (i, m) :: Env.set rest i m else p :: Env.set rest i m

/-- External destruction of an instance by its owner. -/
def Env.erase (e : Env) (i : Nat) : Env :=
  e.filter (fun p => p.1 ≠ i)

/-- `observer.expired()`: the referenced instance no longer exists. -/
def expired (e : Env) (i : SceneModuleObserver) : Bool :=
  (Env.get e i).isNone

/-- Observable lifecycle events emitted by manager operations. -/
inductive Event where
  | onEntry (id : Nat)
  | onExit (id : Nat)
  | onExitIdle
deriving DecidableEq, Repr

/-- Manager state (`SceneModuleManagerInterface` data members; the publishers,
node pointer, RTC interface map and configuration are external wiring and
carry no state the verified operations read). -/
structure SceneModuleManagerInterface where
  name_ : String
  planner_data_ : PlannerData := 0
  observers_ : List SceneModuleObserver := []
  idle_module_ptr_ : Option SceneModuleInterface := none
deriving DecidableEq, Repr

namespace SceneModuleManagerInterface

/-- `isExecutionRequested` (hpp lines 66–73): injects the planner context and
previous-stage output into the retained idle instance, refreshes it, and
queries its predicate. The C++ dereferences `idle_module_ptr_`
unconditionally; an absent idle instance is modelled as `none` (the
dereference has no defined result). -/
def isExecutionRequested (mgr : SceneModuleManagerInterface)
    (previous_module_output : BehaviorModuleOutput) : Option Bool :=
  match mgr.idle_module_ptr_ with
  | none => none
  | some m =>
      let m := m.setData mgr.planner_data_
      let m := m.setPreviousModuleOutput previous_module_output
      let m := m.updateData
      some m.isExecutionRequested

/-- `registerNewModule` (hpp lines 75–88): silent no-op on an expired
candidate; otherwise injects context and previous output into the instance,
invokes `onEntry`, and appends the observer. The `add_reporter` call wires an
external processing-time sink and leaves no state the manager reads. -/
def registerNewModule (env : Env) (mgr : SceneModuleManagerInterface)
    (observer : SceneModuleObserver) (previous_module_output : BehaviorModuleOutput) :
    Env × SceneModuleManagerInterface × List Event :=
  match Env.get env observer with
  | none => (env, mgr, [])
  | some m =>
      let m := m.setData mgr.planner_data_
      let m := m.setPreviousModuleOutput previous_module_output
      (Env.set env observer m,
       { mgr with observers_ := mgr.observers_ ++ [observer] },
       [Event.onEntry observer])

/-- `updateObserver` (hpp lines 90–97): erase-remove of expired entries. -/
def updateObserver (env : Env) (mgr : SceneModuleManagerInterface) :
    SceneModuleManagerInterface :=
  { mgr with observers_ := mgr.observers_.filter (fun i => !(expired env i)) }

/-- `publishSteeringFactor` (hpp lines 109–127): iterate observers, skip
expired entries, append the factor unless its behavior is the
`PlanningBehavior::UNKNOWN` sentinel. Returns the published batch. -/
def publishSteeringFactor (env : Env) (mgr : SceneModuleManagerInterface) :
    List SteeringFactor :=
  mgr.observers_.filterMap (fun i =>
    match Env.get env i with
    | none => none
    | some m =>
        if m.get_steering_factor.behavior = PlanningBehavior.UNKNOWN then none
        else some m.get_steering_factor)

/-- `publishVelocityFactor` (hpp lines 129–147): same shape for velocity. -/
def publishVelocityFactor (env : Env) (mgr : SceneModuleManagerInterface) :
    List VelocityFactor :=
  mgr.observers_.filterMap (fun i =>
    match Env.get env i with
    | none => none
    | some m =>
        if m.get_velocity_factor.behavior = PlanningBehavior.UNKNOWN then none
        else some m.get_velocity_factor)

/-- `exist` (hpp lines 238–243): the id is present and still live. -/
def exist (env : Env) (mgr : SceneModuleManagerInterface)
    (module_ptr : SceneModuleObserver) : Bool :=
  mgr.observers_.any (fun i => !(expired env i) && i == module_ptr)

/-- `canLaunchNewModule` (hpp line 254): `observers_.empty()`. -/
def canLaunchNewModule (mgr : SceneModuleManagerInterface) : Bool :=
  mgr.observers_.isEmpty

/-- `reset` (hpp lines 268–284): `onExit` on every live observer, clear the
observer list, `onExit` and release the idle instance when present, and
publish an empty `MarkerArray` on the debug channel. Returns the new state,
the emitted lifecycle events, and the published debug batch. -/
def reset (env : Env) (mgr : SceneModuleManagerInterface) :
    SceneModuleManagerInterface × List Event × MarkerArray :=
  let exit_events := mgr.observers_.filterMap (fun i =>
    if expired env i then none else some (Event.onExit i))
  let idle_events : List Event :=
    match mgr.idle_module_ptr_ with
    | some _ => [Event.onExitIdle]
    | none => []
  ({ mgr with observers_ := [], idle_module_ptr_ := none },
   exit_events ++ idle_events,
   ([] : MarkerArray))

/-- `getIdleModule` (hpp line 290): `std::move(idle_module_ptr_)` — returns
the owned idle instance and leaves the slot empty. -/
def getIdleModule (mgr : SceneModuleManagerInterface) :
    Option SceneModuleInterface × SceneModuleManagerInterface :=
  (mgr.idle_module_ptr_, { mgr with idle_module_ptr_ := none })

/-- Modelled from the spec: `updateIdleModuleInstance` is declared in the
header (line 64) but its body is not under src/. Per the spec (§4.2, §9: "a
tagged optional slot with explicit take operation … and a separate ensure
populated step run before every probe"), it lazily creates a fresh instance
via the virtual factory `createNewSceneModuleInstance` (abstracted as the
`fresh` argument) when the slot is empty, and keeps the retained instance
otherwise. -/
def updateIdleModuleInstance (fresh : SceneModuleInterface)
    (mgr : SceneModuleManagerInterface) : SceneModuleManagerInterface :=
  match mgr.idle_module_ptr_ with
  | some _ => mgr
  | none => { mgr with idle_module_ptr_ := some fresh }

end SceneModuleManagerInterface

/-- The observer entries whose referenced instance is still live. -/
def liveObservers (env : Env) (mgr : SceneModuleManagerInterface) :
    List SceneModuleObserver :=
  mgr.observers_.filter (fun i => !(expired env i))

/-- Number of observer entries whose referenced instance is still live. -/
def liveObserverCount (env : Env) (mgr : SceneModuleManagerInterface) : Nat :=
  (liveObservers env mgr).length

/-- `std::numeric_limits<uint8_t>::max()`, the fixed block size used as both
the initial marker id and the per-instance increment in `publishMarker`. -/
def marker_offset : Nat := 255

/-- Modelled from the spec: `autoware::universe_utils::appendMarkerArray`
(not under src/) appends the markers of `arr` to the destination batch. -/
def appendMarkerArray (arr : MarkerArray) (dest : MarkerArray) : MarkerArray :=
  dest ++ arr

/-- Modelled from the spec: `autoware::motion_utils::createStopVirtualWallMarker`
(not under src/) synthesizes the stop wall marker at the pose, labeled with
the module name and the given identifier; the identifier parameter is taken
by value, so the call leaves the caller's counter unchanged. -/
def createStopVirtualWallMarker (pose : Pose) (module_name : String) (id : Nat) :
    MarkerArray :=
  [{ ns := module_name ++ "_stop_virtual_wall", id := id, pose := some pose }]

/-- Modelled from the spec: `createSlowDownVirtualWallMarker` (not under
src/), same shape for the slow-down wall. -/
def createSlowDownVirtualWallMarker (pose : Pose) (module_name : String) (id : Nat) :
    MarkerArray :=
  [{ ns := module_name ++ "_slow_down_virtual_wall", id := id, pose := some pose }]

/-- Modelled from the spec: `createDeadLineVirtualWallMarker` (not under
src/), same shape for the dead-line wall. -/
def createDeadLineVirtualWallMarker (pose : Pose) (module_name : String) (id : Nat) :
    MarkerArray :=
  [{ ns := module_name ++ "_dead_line_virtual_wall", id := id, pose := some pose }]

namespace SceneModuleManagerInterface

/-- Loop body of `publishVirtualWall` (hpp lines 158–188) for one observer:
skip an expired entry; otherwise synthesize stop/slow/dead wall markers at
the instance's recorded poses with the current `marker_id`, append the
module-specific wall markers, and clear the instance's wall poses. The
source never updates `marker_id` inside this loop. -/
def publishVirtualWallStep :
    MarkerArray × Nat × Env → SceneModuleObserver → MarkerArray × Nat × Env
  | (markers, marker_id, env), i =>
    match Env.get env i with
    | none => (markers, marker_id, env)
    | some m =>
        let markers :=
          match m.getStopPose with
          | some p => appendMarkerArray (createStopVirtualWallMarker p m.name marker_id) markers
          | none => markers
        let markers :=
          match m.getSlowPose with
          | some p =>
              appendMarkerArray (createSlowDownVirtualWallMarker p m.name marker_id) markers
          | none => markers
        let markers :=
          match m.getDeadPose with
          | some p =>
              appendMarkerArray (createDeadLineVirtualWallMarker p m.name marker_id) markers
          | none => markers
        let markers := appendMarkerArray m.getModuleVirtualWall markers
        (markers, marker_id, Env.set env i m.resetWallPoses)

/-- `publishVirtualWall` (hpp lines 149–191): fold the loop body over the
observers starting from an empty batch and `marker_id = marker_offset`.
Returns the published batch and the registry after the per-instance
`resetWallPoses` side effects. -/
def publishVirtualWall (env : Env) (mgr : SceneModuleManagerInterface) :
    MarkerArray × Env :=
  let r := mgr.observers_.foldl publishVirtualWallStep ([], marker_offset, env)
  (r.1, r.2.2)

/-- Loop body of `publishMarker` (hpp lines 204–225) for one observer: skip
an expired entry; otherwise append the instance's info/debug/drivable-lanes
markers with each id offset by the current `marker_id` (unsigned 32-bit
arithmetic), then advance `marker_id` by `marker_offset`. -/
def publishMarkerStep (env : Env) :
    MarkerArray × MarkerArray × MarkerArray × Nat → SceneModuleObserver →
      MarkerArray × MarkerArray × MarkerArray × Nat
  | (info_markers, debug_markers, drivable_lanes_markers, marker_id), i =>
    match Env.get env i with
    | none => (info_markers, debug_markers, drivable_lanes_markers, marker_id)
    | some m =>
        (info_markers ++
           m.getInfoMarkers.map (fun mk => { mk with id := (mk.id + marker_id) % 2 ^ 32 }),
         debug_markers ++
           m.getDebugMarkers.map (fun mk => { mk with id := (mk.id + marker_id) % 2 ^ 32 }),
         drivable_lanes_markers ++
           m.getDrivableLanesMarkers.map (fun mk => { mk with id := (mk.id + marker_id) % 2 ^ 32 }),
         (marker_id + marker_offset) % 2 ^ 32)

/-- `publishMarker` (hpp lines 193–236): fold the loop body over the
observers; if the observer list is empty and an idle instance exists, append
the idle instance's marker sets (without offset) to the batches. Returns the
published (info, debug, drivable-lanes) batches. -/
def publishMarker (env : Env) (mgr : SceneModuleManagerInterface) :
    MarkerArray × MarkerArray × MarkerArray :=
  let r := mgr.observers_.foldl (publishMarkerStep env) ([], [], [], marker_offset)
  if mgr.observers_.isEmpty then
    match mgr.idle_module_ptr_ with
    | some m =>
        (appendMarkerArray m.getInfoMarkers r.1,
         appendMarkerArray m.getDebugMarkers r.2.1,
         appendMarkerArray m.getDrivableLanesMarkers r.2.2.1)
    | none => (r.1, r.2.1, r.2.2.1)
  else (r.1, r.2.1, r.2.2.1)

end SceneModuleManagerInterface

/-- One step of the environment/manager history: a registration request, an
`updateObserver` prune, or destruction of an instance by its external owner. -/
inductive Op where
  | register (id : SceneModuleObserver) (out : BehaviorModuleOutput)
  | update
  | destroy (id : Nat)
deriving DecidableEq, Repr

/-- Apply one operation to the registry/manager pair. -/
def stepOp (s : Env × SceneModuleManagerInterface) : Op → Env × SceneModuleManagerInterface
  | Op.register i out =>
      let r := SceneModuleManagerInterface.registerNewModule s.1 s.2 i out
      (r.1, r.2.1)
  | Op.update => (s.1, SceneModuleManagerInterface.updateObserver s.1 s.2)
  | Op.destroy i => (Env.erase s.1 i, s.2)

/-- Run a sequence of operations. -/
def runOps (s : Env × SceneModuleManagerInterface) (ops : List Op) :
    Env × SceneModuleManagerInterface :=
  ops.foldl stepOp s

/-! ### Concrete sample states used by witnesses and counterexamples -/

/-- A live instance with all-default status fields. -/
def sampleModule : SceneModuleInterface := { name := "sample" }

/-- Registry holding the single live instance `0`. -/
def env0 : Env := [(0, sampleModule)]

/-- Registry holding no live instance at all. -/
def envDead : Env := []

/-- Freshly constructed manager: no observers, no idle instance. -/
def mgr0 : SceneModuleManagerInterface := { name_ := "lane_change" }

/-- Manager currently retaining an idle instance. -/
def mgr2 : SceneModuleManagerInterface :=
  { name_ := "lane_change", idle_module_ptr_ := some sampleModule }

/-- Registry with two live instances `1` and `2`, for the reset witness. -/
def envR : Env := [(1, sampleModule), (2, sampleModule)]

/-- Manager observing `1` and `2` and retaining an idle instance. -/
def mgrR : SceneModuleManagerInterface :=
  { name_ := "lane_change", observers_ := [1, 2], idle_module_ptr_ := some sampleModule }

/-- Idle instance carrying one marker in each diagnostic set. -/
def idleM : SceneModuleInterface :=
  { name := "idle",
    info_markers := [{ ns := "idle_info", id := 0 }],
    debug_markers := [{ ns := "idle_debug", id := 0 }],
    drivable_lanes_markers := [{ ns := "idle_dl", id := 0 }] }

/-- Manager with one expired observer entry and a retained idle instance. -/
def mgr7 : SceneModuleManagerInterface :=
  { name_ := "lane_change", observers_ := [0], idle_module_ptr_ := some idleM }

/-- Manager with empty observer list and the idle instance `idleM`. -/
def mgrA : SceneModuleManagerInterface :=
  { name_ := "lane_change", idle_module_ptr_ := some idleM }

/-- Instance reporting concretely classified steering and velocity factors. -/
def factorModule : SceneModuleInterface :=
  { name := "sample",
    steering_factor := { behavior := "lane_change", detail := "left" },
    velocity_factor := { behavior := "lane_change", detail := "slow" } }

/-- Registry holding the single live instance `0` with concrete factors. -/
def env10 : Env := [(0, factorModule)]

/-- Manager observing instance `0`. -/
def mgr10 : SceneModuleManagerInterface := { name_ := "lane_change", observers_ := [0] }

/-- Poses and instances used by the virtual-wall counterexample. -/
def pose0 : Pose := { x := 0, y := 0, z := 0 }

/-- Live instance `a` reporting a stop pose. -/
def wallA : SceneModuleInterface := { name := "a", stop_pose := some pose0 }

/-- Live instance `b` reporting a stop pose. -/
def wallB : SceneModuleInterface := { name := "b", stop_pose := some pose0 }

/-- Registry with the two wall-reporting instances. -/
def envW : Env := [(0, wallA), (1, wallB)]

/-- Manager observing both wall-reporting instances. -/
def mgrW : SceneModuleManagerInterface := { name_ := "lane_change", observers_ := [0, 1] }

/-- The instance's locally assigned marker identifiers are pairwise distinct
and all smaller than the fixed per-instance block size. -/
def localIdsOk (l : MarkerArray) : Prop :=
  (l.map Marker.id).Nodup ∧ ∀ mk ∈ l, mk.id < marker_offset

instance (l : MarkerArray) : Decidable (localIdsOk l) := by
  unfold localIdsOk
  infer_instance

/-- Diagnostic markers with colliding local identifiers `0` and `1`. -/
def w1 : SceneModuleInterface :=
  { name := "a", info_markers := [{ ns := "m", id := 0 }, { ns := "m", id := 1 }],
    debug_markers := [{ ns := "d", id := 0 }],
    drivable_lanes_markers := [{ ns := "l", id := 0 }] }

/-- Second instance reusing exactly the same local identifiers. -/
def w2 : SceneModuleInterface :=
  { name := "b", info_markers := [{ ns := "m", id := 0 }, { ns := "m", id := 1 }],
    debug_markers := [{ ns := "d", id := 0 }],
    drivable_lanes_markers := [{ ns := "l", id := 0 }] }

/-- Registry with the two marker-colliding instances. -/
def env8 : Env := [(0, w1), (1, w2)]

/-- Manager observing both marker-colliding instances. -/
def mgr8 : SceneModuleManagerInterface := { name_ := "lane_change", observers_ := [0, 1] }

/-! ### Registry lemmas -/

theorem Env.get_mem {e : Env} {i : Nat} {m : SceneModuleInterface}
    (h : Env.get e i = some m) : (i, m) ∈ e := by
  induction e with
  | nil => simp [Env.get] at h
  | cons p rest ih =>
      obtain ⟨k, v⟩ := p
      by_cases hp : k = i
      · subst hp
        simp [Env.get] at h
        subst h
        exact List.mem_cons_self _ _
      · simp only [Env.get, hp, if_neg, if_false] at h
        exact List.mem_cons_of_mem _ (ih h)

theorem Env.get_set_self {e : Env} {i : Nat} {m₀ : SceneModuleInterface}
    (h : Env.get e i = some m₀) (m : SceneModuleInterface) :
    Env.get (Env.set e i m) i = some m := by
  induction e with
  | nil => simp [Env.get] at h
  | cons p rest ih =>
      by_cases hp : p.1 = i
      · simp [Env.get, Env.set, hp]
      · simp only [Env.get, Env.set, hp, if_neg, if_false] at h ⊢
        exact ih h

theorem Env.mem_set {e : Env} {i : Nat} {m : SceneModuleInterface}
    {q : Nat × SceneModuleInterface} (h : q ∈ Env.set e i m) :
    q = (i, m) ∨ q ∈ e := by
  induction e with
  | nil => simp [Env.set] at h
  | cons p rest ih =>
      by_cases hp : p.1 = i
      · simp only [Env.set, hp, if_pos, List.mem_cons] at h
        rcases h with h | h
        · exact Or.inl h
        · rcases ih h with h | h
          · exact Or.inl h
          · exact Or.inr (List.mem_cons_of_mem _ h)
      · simp only [Env.set, hp, if_neg, if_false, List.mem_cons] at h
        rcases h with h | h
        · exact Or.inr (h ▸ List.mem_cons_self _ _)
        · rcases ih h with h | h
          · exact Or.inl h
          · exact Or.inr (List.mem_cons_of_mem _ h)

theorem filter_filter_self {α : Type} (p : α → Bool) (l : List α) :
    (l.filter p).filter p = l.filter p :=
  List.filter_eq_self.mpr fun _ ha => (List.mem_filter.mp ha).2

/-! ### Claim theorems -/

/-- Claim C1, counterexample: after `registerNewModule 0` followed by external
destruction of instance `0` (no intervening `updateObserver`), the live
observer count is zero yet `canLaunchNewModule()` returns `false`, because it
tests raw emptiness of the observer list, expired entries included. -/
theorem canLaunchNewModule_live_iff_cex :
    ¬ ((runOps (env0, mgr0) [Op.register 0 0, Op.destroy 0]).2.canLaunchNewModule = true ↔
        liveObserverCount (runOps (env0, mgr0) [Op.register 0 0, Op.destroy 0]).1
          (runOps (env0, mgr0) [Op.register 0 0, Op.destroy 0]).2 = 0) := by
  decide

/-- Claim C1 (amended): after every sequence of register/update/destroy
operations, `canLaunchNewModule()` returns true iff the observer list is
empty (expired entries included); when the query immediately follows an
`updateObserver` prune, this coincides with the live observer count being
exactly zero. -/
theorem canLaunchNewModule_iff_empty (ops : List Op) (env : Env)
    (mgr : SceneModuleManagerInterface) :
    ((runOps (env, mgr) ops).2.canLaunchNewModule = true ↔
        (runOps (env, mgr) ops).2.observers_ = []) ∧
    ((SceneModuleManagerInterface.updateObserver (runOps (env, mgr) ops).1
          (runOps (env, mgr) ops).2).canLaunchNewModule = true ↔
      liveObserverCount (runOps (env, mgr) ops).1
        (SceneModuleManagerInterface.updateObserver (runOps (env, mgr) ops).1
          (runOps (env, mgr) ops).2) = 0) := by
  constructor
  · simp [SceneModuleManagerInterface.canLaunchNewModule, List.isEmpty_iff]
  · simp only [SceneModuleManagerInterface.canLaunchNewModule,
      SceneModuleManagerInterface.updateObserver, liveObserverCount, liveObservers,
      filter_filter_self, List.isEmpty_iff, List.length_eq_zero]

/-- Claim C2, counterexample: the manager retains an idle instance, ownership
is transferred out by `getIdleModule`, and the next `isExecutionRequested`
probe dereferences the now-absent idle instance (modelled as `none`) instead
of lazily recreating it. -/
theorem isExecutionRequested_after_transfer_cex :
    mgr2.idle_module_ptr_.isSome = true ∧
    SceneModuleManagerInterface.isExecutionRequested
        (SceneModuleManagerInterface.getIdleModule mgr2).2 0 = none :=
  ⟨rfl, rfl⟩

/-- Claim C2 (amended): `isExecutionRequested` itself performs no lazy
recreation — after `getIdleModule` has transferred ownership out, the probe
dereferences an absent idle instance (no defined result); the lazy recreation
the spec requires is provided by the separate `updateIdleModuleInstance`
step, after which the probe succeeds. -/
theorem isExecutionRequested_lazy_recreation (mgr : SceneModuleManagerInterface)
    (fresh : SceneModuleInterface) (out : BehaviorModuleOutput) :
    (SceneModuleManagerInterface.getIdleModule mgr).2.idle_module_ptr_ = none ∧
    SceneModuleManagerInterface.isExecutionRequested
        (SceneModuleManagerInterface.getIdleModule mgr).2 out = none ∧
    (SceneModuleManagerInterface.isExecutionRequested
        (SceneModuleManagerInterface.updateIdleModuleInstance fresh
          (SceneModuleManagerInterface.getIdleModule mgr).2) out).isSome = true :=
  ⟨rfl, rfl, rfl⟩

/-- Claim C3: registering a candidate whose weak reference has expired is a
silent no-op: the registry, the manager state (in particular the observer
list) and the emitted events are all unchanged. -/
theorem registerNewModule_expired_noop (env : Env) (mgr : SceneModuleManagerInterface)
    (observer : SceneModuleObserver) (out : BehaviorModuleOutput)
    (h : expired env observer = true) :
    SceneModuleManagerInterface.registerNewModule env mgr observer out = (env, mgr, []) := by
  have hg : Env.get env observer = none := by
    simpa [expired, Option.isNone_iff_eq_none] using h
  simp [SceneModuleManagerInterface.registerNewModule, hg]

/-- Witness for C3: instance `0` does not exist in the empty registry, and
registering it changes nothing. -/
theorem registerNewModule_expired_noop_witness :
    expired envDead 0 = true ∧
    SceneModuleManagerInterface.registerNewModule envDead mgr0 0 0 = (envDead, mgr0, []) :=
  ⟨by decide, registerNewModule_expired_noop envDead mgr0 0 0 (by decide)⟩

/-- Claim C6: `updateObserver` keeps exactly the entries whose instance is
still live, preserves their relative order (the pruned list is a sublist of
the original), and is idempotent under an unchanged registry. -/
theorem updateObserver_prunes_exact (env : Env) (mgr : SceneModuleManagerInterface) :
    (∀ i : SceneModuleObserver,
        i ∈ (SceneModuleManagerInterface.updateObserver env mgr).observers_ ↔
          i ∈ mgr.observers_ ∧ expired env i = false) ∧
    (SceneModuleManagerInterface.updateObserver env mgr).observers_.Sublist
        mgr.observers_ ∧
    SceneModuleManagerInterface.updateObserver env
        (SceneModuleManagerInterface.updateObserver env mgr) =
      SceneModuleManagerInterface.updateObserver env mgr := by
  refine ⟨fun i => ?_, ?_, ?_⟩
  · simp [SceneModuleManagerInterface.updateObserver, List.mem_filter]
  · simp only [SceneModuleManagerInterface.updateObserver]
    exact List.filter_sublist mgr.observers_
  · cases mgr
    simp [SceneModuleManagerInterface.updateObserver, filter_filter_self]

/-- Claim C9: registering a candidate that is still live invokes its
`onEntry` hook and appends it to the observer list whatever the number of
entries already present (no admission rejection at this layer), and the
candidate is thereafter among the live observers every aggregation pass
iterates. -/
theorem registerNewModule_live_appends (env : Env) (mgr : SceneModuleManagerInterface)
    (observer : SceneModuleObserver) (out : BehaviorModuleOutput)
    (m : SceneModuleInterface) (h : Env.get env observer = some m) :
    (SceneModuleManagerInterface.registerNewModule env mgr observer out).2.1.observers_ =
        mgr.observers_ ++ [observer] ∧
    (SceneModuleManagerInterface.registerNewModule env mgr observer out).2.2 =
        [Event.onEntry observer] ∧
    observer ∈ liveObservers
        (SceneModuleManagerInterface.registerNewModule env mgr observer out).1
        (SceneModuleManagerInterface.registerNewModule env mgr observer out).2.1 := by
  have hset := Env.get_set_self h
    ((m.setData mgr.planner_data_).setPreviousModuleOutput out)
  refine ⟨?_, ?_, ?_⟩
  · simp [SceneModuleManagerInterface.registerNewModule, h]
  · simp [SceneModuleManagerInterface.registerNewModule, h]
  · simp [SceneModuleManagerInterface.registerNewModule, h, liveObservers,
      List.mem_filter, expired, hset]

/-- Witness for C9: registering live instance `0` on a fresh manager appends
it, emits its `onEntry`, and leaves it among the live observers. -/
theorem registerNewModule_live_appends_witness :
    Env.get env0 0 = some sampleModule ∧
    (SceneModuleManagerInterface.registerNewModule env0 mgr0 0 0).2.1.observers_ =
        mgr0.observers_ ++ [0] :=
  ⟨by decide, (registerNewModule_live_appends env0 mgr0 0 0 sampleModule (by decide)).1⟩

/-! ### Counting `onExit` events emitted by `reset` -/

theorem count_onExit_zero_of_not_mem (env : Env) {l : List Nat} {i : Nat} (hi : i ∉ l) :
    (l.filterMap (fun j => if expired env j then none else some (Event.onExit j))).count
      (Event.onExit i) = 0 := by
  rw [List.count_eq_zero]
  intro hmem
  rcases List.mem_filterMap.mp hmem with ⟨j, hj, hf⟩
  by_cases hexp : expired env j
  · simp [hexp] at hf
  · simp [hexp] at hf
    exact hi (hf ▸ hj)

theorem count_onExitIdle_zero (env : Env) (l : List Nat) :
    (l.filterMap (fun j => if expired env j then none else some (Event.onExit j))).count
      Event.onExitIdle = 0 := by
  rw [List.count_eq_zero]
  intro hmem
  rcases List.mem_filterMap.mp hmem with ⟨j, _, hf⟩
  by_cases hexp : expired env j <;> simp [hexp] at hf

theorem count_onExit_one (env : Env) {l : List Nat} {i : Nat}
    (h : l.Nodup) (hi : i ∈ l) (hl : expired env i = false) :
    (l.filterMap (fun j => if expired env j then none else some (Event.onExit j))).count
      (Event.onExit i) = 1 := by
  induction l with
  | nil => cases hi
  | cons a t ih =>
      rcases List.mem_cons.mp hi with rfl | hit
      · have hnot : i ∉ t := (List.nodup_cons.mp h).1
        have hz := count_onExit_zero_of_not_mem env (l := t) (i := i) hnot
        simp [List.filterMap_cons, hl, List.count_cons, hz]
      · have hat : a ≠ i := fun e => (List.nodup_cons.mp h).1 (e ▸ hit)
        have ht := ih (List.nodup_cons.mp h).2 hit
        by_cases hexp : expired env a
        · simp [List.filterMap_cons, hexp, ht]
        · simp [List.filterMap_cons, hexp, List.count_cons, ht, hat]

/-- Claim C5: `reset` on a manager whose observer entries are pairwise
distinct emits `onExit` exactly once for each live observed instance, leaves
the observer list empty and the idle slot released (with its `onExit` emitted
exactly when an idle instance was present), and publishes an empty debug
marker batch. -/
theorem reset_complete (env : Env) (mgr : SceneModuleManagerInterface)
    (h : mgr.observers_.Nodup) :
    (SceneModuleManagerInterface.reset env mgr).1.observers_ = [] ∧
    (SceneModuleManagerInterface.reset env mgr).1.idle_module_ptr_ = none ∧
    (SceneModuleManagerInterface.reset env mgr).2.2 = [] ∧
    (∀ i ∈ mgr.observers_, expired env i = false →
      (SceneModuleManagerInterface.reset env mgr).2.1.count (Event.onExit i) = 1) ∧
    (SceneModuleManagerInterface.reset env mgr).2.1.count Event.onExitIdle =
      (if mgr.idle_module_ptr_.isSome then 1 else 0) := by
  refine ⟨rfl, rfl, rfl, ?_, ?_⟩
  · intro i hi hexp
    simp only [SceneModuleManagerInterface.reset]
    rw [List.count_append, count_onExit_one env h hi hexp]
    cases hidle : mgr.idle_module_ptr_ <;> simp
  · simp only [SceneModuleManagerInterface.reset]
    rw [List.count_append, count_onExitIdle_zero]
    cases hidle : mgr.idle_module_ptr_ <;> simp

/-- Witness for C5 on a manager with two live observers and an idle slot. -/
theorem reset_complete_witness :
    mgrR.observers_.Nodup ∧
    (SceneModuleManagerInterface.reset envR mgrR).1.observers_ = [] ∧
    (SceneModuleManagerInterface.reset envR mgrR).1.idle_module_ptr_ = none ∧
    (SceneModuleManagerInterface.reset envR mgrR).2.1.count (Event.onExit 1) = 1 :=
  ⟨by decide, (reset_complete envR mgrR (by decide)).1,
   (reset_complete envR mgrR (by decide)).2.1,
   (reset_complete envR mgrR (by decide)).2.2.2.1 1 (by decide) (by decide)⟩

/-! ### Idle substitution in `publishMarker` -/

/-- Claim C7, counterexample: with zero live instances but one expired
observer entry still unpruned, the idle instance is present yet its markers
are not substituted — the emitted info batch is empty, not the idle
instance's marker set, because the code tests raw emptiness of the observer
list. -/
theorem publishMarker_idle_cex :
    liveObserverCount envDead mgr7 = 0 ∧
    mgr7.idle_module_ptr_.isSome = true ∧
    (SceneModuleManagerInterface.publishMarker envDead mgr7).1 ≠ idleM.info_markers := by
  decide

/-- Claim C7 (amended): when the observer list is empty (no entries at all,
live or expired) and an idle instance is present, the emitted batches equal
the idle instance's marker sets; when the observer list is non-empty — in
particular whenever at least one live instance exists — the idle instance's
markers are excluded regardless of its presence. -/
theorem publishMarker_idle_substitution (env : Env) (mgr : SceneModuleManagerInterface) :
    (∀ m : SceneModuleInterface, mgr.observers_ = [] → mgr.idle_module_ptr_ = some m →
        SceneModuleManagerInterface.publishMarker env mgr =
          (m.info_markers, m.debug_markers, m.drivable_lanes_markers)) ∧
    (mgr.observers_ ≠ [] →
        SceneModuleManagerInterface.publishMarker env mgr =
          SceneModuleManagerInterface.publishMarker env
            { mgr with idle_module_ptr_ := none }) := by
  constructor
  · intro m hobs hidle
    simp [SceneModuleManagerInterface.publishMarker, hobs, hidle, appendMarkerArray,
      SceneModuleInterface.getInfoMarkers, SceneModuleInterface.getDebugMarkers,
      SceneModuleInterface.getDrivableLanesMarkers]
  · intro hobs
    have hne : mgr.observers_.isEmpty = false := by
      simp [List.isEmpty_iff, hobs]
    simp [SceneModuleManagerInterface.publishMarker, hne]

/-- Witness for C7 (amended): the idle markers are substituted on an empty
observer list, and with a non-empty observer list the output is the same
with or without the idle instance. -/
theorem publishMarker_idle_substitution_witness :
    SceneModuleManagerInterface.publishMarker envDead mgrA =
        (idleM.info_markers, idleM.debug_markers, idleM.drivable_lanes_markers) ∧
    SceneModuleManagerInterface.publishMarker envDead mgr7 =
        SceneModuleManagerInterface.publishMarker envDead
          { mgr7 with idle_module_ptr_ := none } :=
  ⟨(publishMarker_idle_substitution envDead mgrA).1 idleM rfl rfl,
   (publishMarker_idle_substitution envDead mgr7).2 (by decide)⟩

/-! ### Factor filtering -/

/-- Claim C10: in both factor aggregations every batch entry has a concrete
(non-`UNKNOWN`) behavior classification, every live instance with a concrete
classification contributes its factor to the batch, and every batch entry is
some live instance's factor — so an instance's factor is appended iff its
classification is not the unknown/unset sentinel. -/
theorem publishFactors_filter_unknown (env : Env) (mgr : SceneModuleManagerInterface) :
    (∀ f ∈ SceneModuleManagerInterface.publishSteeringFactor env mgr,
        f.behavior ≠ PlanningBehavior.UNKNOWN) ∧
    (∀ i ∈ mgr.observers_, ∀ m : SceneModuleInterface, Env.get env i = some m →
        m.get_steering_factor.behavior ≠ PlanningBehavior.UNKNOWN →
        m.get_steering_factor ∈ SceneModuleManagerInterface.publishSteeringFactor env mgr) ∧
    (∀ f ∈ SceneModuleManagerInterface.publishSteeringFactor env mgr,
        ∃ i ∈ mgr.observers_, ∃ m : SceneModuleInterface,
          Env.get env i = some m ∧ m.get_steering_factor = f) ∧
    (∀ f ∈ SceneModuleManagerInterface.publishVelocityFactor env mgr,
        f.behavior ≠ PlanningBehavior.UNKNOWN) ∧
    (∀ i ∈ mgr.observers_, ∀ m : SceneModuleInterface, Env.get env i = some m →
        m.get_velocity_factor.behavior ≠ PlanningBehavior.UNKNOWN →
        m.get_velocity_factor ∈ SceneModuleManagerInterface.publishVelocityFactor env mgr) ∧
    (∀ f ∈ SceneModuleManagerInterface.publishVelocityFactor env mgr,
        ∃ i ∈ mgr.observers_, ∃ m : SceneModuleInterface,
          Env.get env i = some m ∧ m.get_velocity_factor = f) := by
  refine ⟨?_, ?_, ?_, ?_, ?_, ?_⟩
  · intro f hf
    rcases List.mem_filterMap.mp hf with ⟨i, _, hfi⟩
    cases hg : Env.get env i with
    | none => simp [hg] at hfi
    | some m =>
        by_cases hb : m.get_steering_factor.behavior = PlanningBehavior.UNKNOWN
        · simp [hg, hb] at hfi
        · simp [hg, hb] at hfi
          exact hfi ▸ hb
  · intro i hi m hm hb
    exact List.mem_filterMap.mpr ⟨i, hi, by simp [hm, hb]⟩
  · intro f hf
    rcases List.mem_filterMap.mp hf with ⟨i, hi, hfi⟩
    cases hg : Env.get env i with
    | none => simp [hg] at hfi
    | some m =>
        by_cases hb : m.get_steering_factor.behavior = PlanningBehavior.UNKNOWN
        · simp [hg, hb] at hfi
        · simp [hg, hb] at hfi
          exact ⟨i, hi, m, hg, hfi⟩
  · intro f hf
    rcases List.mem_filterMap.mp hf with ⟨i, _, hfi⟩
    cases hg : Env.get env i with
    | none => simp [hg] at hfi
    | some m =>
        by_cases hb : m.get_velocity_factor.behavior = PlanningBehavior.UNKNOWN
        · simp [hg, hb] at hfi
        · simp [hg, hb] at hfi
          exact hfi ▸ hb
  · intro i hi m hm hb
    exact List.mem_filterMap.mpr ⟨i, hi, by simp [hm, hb]⟩
  · intro f hf
    rcases List.mem_filterMap.mp hf with ⟨i, hi, hfi⟩
    cases hg : Env.get env i with
    | none => simp [hg] at hfi
    | some m =>
        by_cases hb : m.get_velocity_factor.behavior = PlanningBehavior.UNKNOWN
        · simp [hg, hb] at hfi
        · simp [hg, hb] at hfi
          exact ⟨i, hi, m, hg, hfi⟩

/-- Witness for C10: the live instance's concretely classified steering
factor is appended to the emitted batch. -/
theorem publishFactors_filter_unknown_witness :
    (0 ∈ mgr10.observers_) ∧ Env.get env10 0 = some factorModule ∧
    factorModule.get_steering_factor.behavior ≠ PlanningBehavior.UNKNOWN ∧
    factorModule.get_steering_factor ∈
      SceneModuleManagerInterface.publishSteeringFactor env10 mgr10 :=
  ⟨by decide, by decide, by decide,
   (publishFactors_filter_unknown env10 mgr10).2.1 0 (by decide) factorModule
     (by decide) (by decide)⟩

/-! ### Virtual-wall marker identifiers -/

theorem publishVirtualWallStep_invariant (markers : MarkerArray) (mid : Nat) (env : Env)
    (a : Nat)
    (henv : ∀ p ∈ env, (p.2 : SceneModuleInterface).module_virtual_wall = ([] : MarkerArray))
    (hacc : ∀ mk ∈ markers, mk.id = mid) :
    (∀ mk ∈ (SceneModuleManagerInterface.publishVirtualWallStep (markers, mid, env) a).1,
        mk.id = mid) ∧
    (SceneModuleManagerInterface.publishVirtualWallStep (markers, mid, env) a).2.1 = mid ∧
    (∀ p ∈ (SceneModuleManagerInterface.publishVirtualWallStep (markers, mid, env) a).2.2,
        (p.2 : SceneModuleInterface).module_virtual_wall = ([] : MarkerArray)) := by
  cases hg : Env.get env a with
  | none =>
      refine ⟨?_, ?_, ?_⟩ <;>
        simp only [SceneModuleManagerInterface.publishVirtualWallStep, hg]
      · exact hacc
      · exact henv
  | some m =>
      have hwall : m.getModuleVirtualWall = [] := henv _ (Env.get_mem hg)
      refine ⟨?_, ?_, ?_⟩
      · intro mk hmk
        simp only [SceneModuleManagerInterface.publishVirtualWallStep, hg, hwall] at hmk
        cases hs : m.getStopPose <;> cases hsl : m.getSlowPose <;> cases hd : m.getDeadPose <;>
          simp only [hs, hsl, hd, appendMarkerArray, createStopVirtualWallMarker,
            createSlowDownVirtualWallMarker, createDeadLineVirtualWallMarker,
            List.append_nil, List.mem_append, List.mem_singleton] at hmk <;>
          aesop
      · simp only [SceneModuleManagerInterface.publishVirtualWallStep, hg]
      · intro p hp
        simp only [SceneModuleManagerInterface.publishVirtualWallStep, hg] at hp
        rcases Env.mem_set hp with rfl | hp'
        · simpa [SceneModuleInterface.resetWallPoses] using henv _ (Env.get_mem hg)
        · exact henv _ hp'

theorem publishVirtualWall_fold_id (l : List Nat) :
    ∀ (markers : MarkerArray) (env : Env),
      (∀ p ∈ env, (p.2 : SceneModuleInterface).module_virtual_wall = ([] : MarkerArray)) →
      (∀ mk ∈ markers, mk.id = 255) →
      ∀ mk ∈ (l.foldl SceneModuleManagerInterface.publishVirtualWallStep
          (markers, 255, env)).1, mk.id = 255 := by
  induction l with
  | nil =>
      intro markers env _ hacc mk hmk
      exact hacc mk (by simpa using hmk)
  | cons a t ih =>
      intro markers env henv hacc mk hmk
      rw [List.foldl_cons] at hmk
      obtain ⟨h₁, h₂, h₃⟩ := publishVirtualWallStep_invariant markers 255 env a henv hacc
      obtain ⟨ms, mid, e, hstep⟩ :
          ∃ ms mid e, SceneModuleManagerInterface.publishVirtualWallStep (markers, 255, env) a =
            (ms, mid, e) :=
        ⟨_, _, _, rfl⟩
      rw [hstep] at hmk h₁ h₂ h₃
      simp only at h₂
      subst h₂
      exact ih ms e h₃ h₁ mk hmk

/-- Claim C4, counterexample: two distinct live instances both reporting a
stop pose receive wall markers with one and the same identifier 255 in one
`publishVirtualWall` pass — the identifier is never incremented, so markers
of distinct instances do share an identifier. -/
theorem publishVirtualWall_shared_id_cex :
    (SceneModuleManagerInterface.publishVirtualWall envW mgrW).1 =
      [{ ns := "a_stop_virtual_wall", id := 255, pose := some pose0 },
       { ns := "b_stop_virtual_wall", id := 255, pose := some pose0 }] := by
  decide

/-- Claim C4 (amended): in one `publishVirtualWall` pass the stop/slow/dead
wall markers of every live instance are labeled with the single fixed
identifier 255 (`std::numeric_limits<uint8_t>::max()`); no per-instance block
increment happens in this function (unlike `publishMarker`), so wall markers
of distinct instances are distinguished only by their namespace label, not by
identifier. Stated for managers whose instances provide no module-specific
wall markers of their own. -/
theorem publishVirtualWall_const_id (env : Env) (mgr : SceneModuleManagerInterface)
    (h : ∀ p ∈ env, (p.2 : SceneModuleInterface).module_virtual_wall = ([] : MarkerArray)) :
    ∀ mk ∈ (SceneModuleManagerInterface.publishVirtualWall env mgr).1, mk.id = 255 := by
  intro mk hmk
  refine publishVirtualWall_fold_id mgr.observers_ [] env h (by simp) mk ?_
  simpa [SceneModuleManagerInterface.publishVirtualWall, marker_offset] using hmk

/-! ### Diagnostic-marker identifier non-collision -/

theorem map_id_offset (l : MarkerArray) (c : Nat) (hc : c + 255 ≤ 2 ^ 32)
    (hb : ∀ mk ∈ l, mk.id < 255) :
    (l.map (fun mk => { mk with id := (mk.id + c) % 2 ^ 32 })).map Marker.id =
      (l.map Marker.id).map (fun n => n + c) := by
  induction l with
  | nil => rfl
  | cons a t ih =>
      have ha : a.id < 255 := hb a (List.mem_cons_self _ _)
      have h2 : (2 : ℕ) ^ 32 = 4294967296 := by norm_num
      have hc' : c + 255 ≤ 4294967296 := by rw [← h2]; exact hc
      have hmod : (a.id + c) % 2 ^ 32 = a.id + c := by
        rw [h2]
        exact Nat.mod_eq_of_lt (by omega)
      simp only [List.map_cons, hmod]
      rw [ih (fun mk hmk => hb mk (List.mem_cons_of_mem _ hmk))]

theorem nodup_offset_blocks (l₁ l₂ : MarkerArray)
    (h₁ : localIdsOk l₁) (h₂ : localIdsOk l₂) :
    ((l₁.map (fun mk : Marker => { mk with id := (mk.id + 255) % 2 ^ 32 }) ++
        l₂.map (fun mk : Marker => { mk with id := (mk.id + 510) % 2 ^ 32 })).map
      Marker.id).Nodup := by
  obtain ⟨h₁n, h₁b⟩ := h₁
  obtain ⟨h₂n, h₂b⟩ := h₂
  have hb₁ : ∀ mk ∈ l₁, mk.id < 255 := fun mk hmk => by
    simpa [marker_offset] using h₁b mk hmk
  have hb₂ : ∀ mk ∈ l₂, mk.id < 255 := fun mk hmk => by
    simpa [marker_offset] using h₂b mk hmk
  rw [List.map_append, map_id_offset l₁ 255 (by norm_num) hb₁,
    map_id_offset l₂ 510 (by norm_num) hb₂]
  refine List.Nodup.append (h₁n.map (add_left_injective 255)) (h₂n.map (add_left_injective 510))
    ?_
  intro n hn₁ hn₂
  rcases List.mem_map.mp hn₁ with ⟨n₁, hn₁m, rfl⟩
  rcases List.mem_map.mp hn₂ with ⟨n₂, hn₂m, he⟩
  rcases List.mem_map.mp hn₁m with ⟨mk₁, hmk₁, rfl⟩
  have hlt : mk₁.id < 255 := hb₁ mk₁ hmk₁
  omega

/-- Claim C8: in one `publishMarker` pass over two live instances whose
locally assigned marker identifiers may collide, provided each instance's own
identifiers are pairwise distinct and below the block size 255, the emitted
info, debug and drivable-lanes batches contain no duplicate identifiers: the
first instance's ids are offset into the block based at 255 and the second's
into the block based at 510. -/
theorem publishMarker_no_id_collision (env : Env) (mgr : SceneModuleManagerInterface)
    (i j : SceneModuleObserver) (m₁ m₂ : SceneModuleInterface)
    (hobs : mgr.observers_ = [i, j])
    (hi : Env.get env i = some m₁) (hj : Env.get env j = some m₂)
    (h1i : localIdsOk m₁.info_markers) (h2i : localIdsOk m₂.info_markers)
    (h1d : localIdsOk m₁.debug_markers) (h2d : localIdsOk m₂.debug_markers)
    (h1l : localIdsOk m₁.drivable_lanes_markers)
    (h2l : localIdsOk m₂.drivable_lanes_markers) :
    ((SceneModuleManagerInterface.publishMarker env mgr).1.map Marker.id).Nodup ∧
    ((SceneModuleManagerInterface.publishMarker env mgr).2.1.map Marker.id).Nodup ∧
    ((SceneModuleManagerInterface.publishMarker env mgr).2.2.map Marker.id).Nodup := by
  refine ⟨?_, ?_, ?_⟩ <;>
    simp only [SceneModuleManagerInterface.publishMarker, hobs, List.foldl_cons,
      List.foldl_nil, SceneModuleManagerInterface.publishMarkerStep, hi, hj,
      SceneModuleInterface.getInfoMarkers, SceneModuleInterface.getDebugMarkers,
      SceneModuleInterface.getDrivableLanesMarkers, marker_offset, List.isEmpty_cons,
      Bool.false_eq_true, if_false, List.nil_append] <;>
    norm_num
  · simpa using nodup_offset_blocks _ _ h1i h2i
  · simpa using nodup_offset_blocks _ _ h1d h2d
  · simpa using nodup_offset_blocks _ _ h1l h2l

/-- Witness for C8 on two live instances emitting identical local marker
identifiers. -/
theorem publishMarker_no_id_collision_witness :
    localIdsOk w1.info_markers ∧ localIdsOk w2.info_markers ∧
    ((SceneModuleManagerInterface.publishMarker env8 mgr8).1.map Marker.id).Nodup :=
  ⟨by decide, by decide,
   (publishMarker_no_id_collision env8 mgr8 0 1 w1 w2 rfl (by decide) (by decide)
     (by decide) (by decide) (by decide) (by decide) (by decide) (by decide)).1⟩

/-- Witness for C4 (amended): the first wall marker of the counterexample
batch carries identifier 255. -/
theorem publishVirtualWall_const_id_witness :
    (∀ p ∈ envW, (p.2 : SceneModuleInterface).module_virtual_wall = ([] : MarkerArray)) ∧
    ({ ns := "a_stop_virtual_wall", id := 255, pose := some pose0 } : Marker) ∈
        (SceneModuleManagerInterface.publishVirtualWall envW mgrW).1 ∧
    ({ ns := "a_stop_virtual_wall", id := 255, pose := some pose0 } : Marker).id = 255 :=
  ⟨by decide, by decide,
   publishVirtualWall_const_id envW mgrW (by decide)
     { ns := "a_stop_virtual_wall", id := 255, pose := some pose0 } (by decide)⟩

end AutowareBPP
